import Mathlib

/-!
Verification development for the infrastructure health-monitoring engine in
automation/python/monitoring/infrastructure_monitor.py.

The Python code is shallowly embedded: each probe function becomes a Lean
function over an explicit outcome type describing what the external world
(HTTP server, database driver, TLS socket, psutil) did; measured latencies
and utilization percentages are rationals; raised exceptions become Except
values or explicit failure constructors.  Numeric string formatting in
messages (Python f-string :.2f) is abstracted to toString of the rational.
-/

namespace InfraMonitor

/-- HealthStatus enumeration (infrastructure_monitor.py lines 27-32). -/
inductive HealthStatus where
  | healthy
  | warning
  | critical
  | unknown
deriving DecidableEq, Repr

/-- The .value string of each HealthStatus member. -/
def HealthStatus.value : HealthStatus → String
  | .healthy => "healthy"
  | .warning => "warning"
  | .critical => "critical"
  | .unknown => "unknown"

/-- Health check result record (dataclass HealthCheck, lines 35-43).
Timestamp and the details mapping are omitted: no claim depends on them. -/
structure HealthCheck where
  name : String
  status : HealthStatus
  message : String
  response_time : ℚ
deriving DecidableEq, Repr

/-- Alert record (dataclass Alert, lines 46-53), details/timestamp omitted. -/
structure Alert where
  level : String
  message : String
  source : String
deriving DecidableEq, Repr

/-- Threshold table of the default configuration (lines 98-107). -/
structure Thresholds where
  response_time_warning : ℚ
  response_time_critical : ℚ
  cpu_warning : ℚ
  cpu_critical : ℚ
  memory_warning : ℚ
  memory_critical : ℚ
  disk_warning : ℚ
  disk_critical : ℚ
deriving DecidableEq, Repr

/-- The default threshold values of _load_config (lines 98-107). -/
def defaultThresholds : Thresholds :=
  { response_time_warning := 1000
    response_time_critical := 5000
    cpu_warning := 80
    cpu_critical := 95
    memory_warning := 85
    memory_critical := 95
    disk_warning := 80
    disk_critical := 90 }

/-- What the HTTP request in check_http_endpoint did: returned a response,
timed out, failed to connect, or raised some other exception (lines 154-195). -/
inductive HttpOutcome where
  | success (status_code : Nat) (respTimeMs : ℚ)
  | timeout
  | connectionError
  | otherError (msg : String)
deriving DecidableEq, Repr

/-- check_http_endpoint (lines 136-204): classifies the HTTP outcome against
the configured response-time thresholds; every exception branch yields a
CRITICAL result. -/
def check_http_endpoint (th : Thresholds) (url : String) (timeoutS : ℚ)
    (expected_status : Nat) (o : HttpOutcome) : HealthCheck :=
  match o with
  | .success code rt =>
    if code = expected_status then
      if rt > th.response_time_critical then
        { name := "HTTP - " ++ url, status := .critical
          message := "Slow response: " ++ toString rt ++ "ms", response_time := rt }
      else if rt > th.response_time_warning then
        { name := "HTTP - " ++ url, status := .warning
          message := "Slow response: " ++ toString rt ++ "ms", response_time := rt }
      else
        { name := "HTTP - " ++ url, status := .healthy
          message := "OK - " ++ toString rt ++ "ms", response_time := rt }
    else
      { name := "HTTP - " ++ url, status := .critical
        message := "Unexpected status code: " ++ toString code, response_time := rt }
  | .timeout =>
      { name := "HTTP - " ++ url, status := .critical
        message := "Timeout after " ++ toString timeoutS ++ "s"
        response_time := timeoutS * 1000 }
  | .connectionError =>
      { name := "HTTP - " ++ url, status := .critical
        message := "Connection failed", response_time := 0 }
  | .otherError e =>
      { name := "HTTP - " ++ url, status := .critical
        message := "Error: " ++ e, response_time := 0 }

/-- What the database driver did in check_database_connection: the connect
plus liveness query succeeded after respTimeMs milliseconds, or some
exception (timeout, refused connection, auth failure, unsupported type)
was raised with message errMsg (lines 223-285). -/
inductive DbOutcome where
  | success (respTimeMs : ℚ)
  | failure (errMsg : String)
deriving DecidableEq, Repr

/-- check_database_connection (lines 206-294).  The thresholds argument models
self.config, which the method can read but never consults here: the 1000 ms
warning boundary is hardcoded (line 269), and every exception becomes a
CRITICAL result with message "Connection failed: {e}" (lines 281-285). -/
def check_database_connection (th : Thresholds) (db_type host : String)
    (port : Nat) (o : DbOutcome) : HealthCheck :=
  let _ := th
  let name := "DB - " ++ db_type ++ "://" ++ host ++ ":" ++ toString port
  match o with
  | .success rt =>
    if rt > 1000 then
      { name := name, status := .warning
        message := "Slow connection: " ++ toString rt ++ "ms", response_time := rt }
    else
      { name := name, status := .healthy
        message := "Connected - " ++ toString rt ++ "ms", response_time := rt }
  | .failure e =>
      { name := name, status := .critical
        message := "Connection failed: " ++ e, response_time := 0 }

/-- Whole days remaining until certificate expiry (line 321):
(expiry_date - datetime.now()).days.  A Python timedelta .days attribute is
the floor of the signed duration in days, so with both instants given in
epoch seconds this is floor division of the difference by 86400. -/
def daysUntilExpiry (expirySec nowSec : Int) : Int :=
  Int.fdiv (expirySec - nowSec) 86400

/-- What the TLS handshake in check_ssl_certificate did: produced a peer
certificate whose notAfter field parses to the given epoch second, or raised
(lines 313-343). -/
inductive SslOutcome where
  | success (notAfterSec : Int)
  | failure (errMsg : String)
deriving DecidableEq, Repr

/-- check_ssl_certificate (lines 296-352): fewer days until expiry is worse;
fewer than 7 days is CRITICAL, fewer than 30 is WARNING, otherwise HEALTHY. -/
def check_ssl_certificate (hostname : String) (port : Nat) (nowSec : Int)
    (o : SslOutcome) : HealthCheck :=
  let name := "SSL - " ++ hostname ++ ":" ++ toString port
  match o with
  | .success expiry =>
    let d := daysUntilExpiry expiry nowSec
    if d < 7 then
      { name := name, status := .critical
        message := "Certificate expires in " ++ toString d ++ " days", response_time := 0 }
    else if d < 30 then
      { name := name, status := .warning
        message := "Certificate expires in " ++ toString d ++ " days", response_time := 0 }
    else
      { name := name, status := .healthy
        message := "Certificate valid for " ++ toString d ++ " days", response_time := 0 }
  | .failure e =>
      { name := name, status := .critical
        message := "SSL check failed: " ++ e, response_time := 0 }

/-- The shared threshold-comparison pattern of check_http_endpoint
(lines 160-168) and check_system_resources (lines 367-372, 386-391, 412-417):
strictly above critical is CRITICAL, otherwise strictly above warning is
WARNING, otherwise HEALTHY. -/
def classifyHigherWorse (value warn crit : ℚ) : HealthStatus :=
  if value > crit then .critical
  else if value > warn then .warning
  else .healthy

/-- CPU branch of check_system_resources (lines 366-372). -/
def classify_cpu (th : Thresholds) (cpu_percent : ℚ) : HealthStatus :=
  if cpu_percent > th.cpu_critical then .critical
  else if cpu_percent > th.cpu_warning then .warning
  else .healthy

/-- Memory branch of check_system_resources (lines 384-391). -/
def classify_memory (th : Thresholds) (memory_percent : ℚ) : HealthStatus :=
  if memory_percent > th.memory_critical then .critical
  else if memory_percent > th.memory_warning then .warning
  else .healthy

/-- Disk branch of check_system_resources (lines 410-417). -/
def classify_disk (th : Thresholds) (disk_percent : ℚ) : HealthStatus :=
  if disk_percent > th.disk_critical then .critical
  else if disk_percent > th.disk_warning then .warning
  else .healthy

/-- generate_alerts (lines 479-502): one Alert per check whose status is in
[WARNING, CRITICAL]; every other status (HEALTHY and also UNKNOWN) produces
no alert.  Message format is "{check.name}: {check.message}". -/
def generate_alerts (checks : List HealthCheck) : List Alert :=
  checks.filterMap fun check =>
    if check.status = .warning ∨ check.status = .critical then
      some { level := check.status.value
             message := check.name ++ ": " ++ check.message
             source := "infrastructure_monitor" }
    else
      none

/-- The future-collection loop of run_health_checks (lines 467-472): a future
that returned a HealthCheck is appended; a future whose probe raised is
caught, logged, and contributes nothing to the batch. -/
def collectFutures (outcomes : List (Except String HealthCheck)) : List HealthCheck :=
  outcomes.filterMap fun o =>
    match o with
    | .ok check => some check
    | .error _ => none

/-- run_health_checks (lines 438-477).  Each submitted probe execution is an
Except value: ok with its HealthCheck, or error when an exception escaped the
probe function (for example a KeyError on a missing config field or an
ImportError, all of which occur before the probe body reaches its own
try block).  After the futures are drained the non-guarded
check_system_resources call extends the batch (line 475); an exception there
propagates out of run_health_checks itself. -/
def run_health_checks (probeOutcomes : List (Except String HealthCheck))
    (sysOutcome : Except String (List HealthCheck)) :
    Except String (List HealthCheck) :=
  match sysOutcome with
  | .error e => .error e
  | .ok sysChecks => .ok (collectFutures probeOutcomes ++ sysChecks)

/-- Notification channel identifiers (send_notifications, lines 514-520). -/
inductive Channel where
  | email
  | slack
deriving DecidableEq, Repr

/-- Per-channel configuration: the enabled flags of
config[notifications][email] and [slack] (lines 108-121). -/
structure NotifConfig where
  emailEnabled : Bool
  slackEnabled : Bool
deriving DecidableEq, Repr

/-- What a channel send attempt did: succeeded, or raised with a message
(an SMTP auth error, a webhook HTTP error, and so on). -/
inductive SendOutcome where
  | ok
  | err (msg : String)
deriving DecidableEq, Repr

/-- Observable events of one dispatch. -/
inductive NotifEvent where
  | attempted (c : Channel)
  | failureLogged (c : Channel) (msg : String)
deriving DecidableEq, Repr

/-- The try/except body shared by _send_email_notifications (lines 522-548)
and _send_slack_notifications (lines 550-590): the channel is attempted, and
a raised exception is swallowed into a log record instead of propagating. -/
def runChannel (c : Channel) (o : SendOutcome) : List NotifEvent :=
  match o with
  | .ok => [.attempted c]
  | .err m => [.attempted c, .failureLogged c m]

/-- send_notifications (lines 504-520): returns immediately on an empty alert
list; otherwise attempts email when enabled, then slack when enabled.  Its
result is the event trace; because each channel guards its own exceptions the
dispatcher is a total function, and the email outcome cannot affect whether
slack is attempted. -/
def send_notifications (cfg : NotifConfig) (alerts : List Alert)
    (emailOutcome slackOutcome : SendOutcome) : List NotifEvent :=
  if alerts.isEmpty then []
  else
    (if cfg.emailEnabled then runChannel .email emailOutcome else []) ++
    (if cfg.slackEnabled then runChannel .slack slackOutcome else [])

/-- The single structured payload built by _send_slack_notifications
(lines 557-582). -/
structure SlackMessage where
  color : String
  title : String
  criticalCount : Nat
  warningCount : Nat
  text : String
deriving DecidableEq, Repr

/-- Payload construction of _send_slack_notifications (lines 557-582): color
is "danger" exactly when some alert is critical, the title carries the total
alert count, and the text joins bullet lines for at most the first 10 alerts. -/
def build_slack_message (alerts : List Alert) : SlackMessage :=
  let critical_alerts := alerts.filter fun a => a.level = "critical"
  let warning_alerts := alerts.filter fun a => a.level = "warning"
  { color := if critical_alerts.isEmpty then "warning" else "danger"
    title := "Infrastructure Alert - " ++ toString alerts.length ++ " issues detected"
    criticalCount := critical_alerts.length
    warningCount := warning_alerts.length
    text := String.intercalate "\n"
      ((alerts.take 10).map fun alert => "• " ++ alert.message) }

/-- What one pass through the body of run_monitoring_loop did
(lines 638-671): the cycle completed with its checks and alerts, some
exception escaped the cycle, or a KeyboardInterrupt arrived. -/
inductive CycleOutcome where
  | ok (checks : List HealthCheck) (alerts : List Alert)
  | err (msg : String)
  | interrupt
deriving DecidableEq, Repr

/-- Whether a cycle outcome is the explicit interrupt. -/
def CycleOutcome.isInterrupt : CycleOutcome → Bool
  | .interrupt => true
  | _ => false

/-- Monitor state across loop iterations: the retention buffer self.alerts
and last batch self.health_checks (lines 70-72, 642-646), whether the while
loop has exited, and the delay slept at the end of the last iteration. -/
structure LoopState where
  alerts : List Alert
  health_checks : List HealthCheck
  terminated : Bool
  lastDelaySec : ℚ
deriving DecidableEq, Repr

/-- The state after InfrastructureMonitor.__init__ (lines 70-72). -/
def initialLoopState : LoopState :=
  { alerts := [], health_checks := [], terminated := false, lastDelaySec := 0 }

/-- One iteration of run_monitoring_loop (lines 638-671): a completed cycle
stores the batch, extends self.alerts, and sleeps the monitoring interval; an
escaped exception is caught by the except-Exception arm which sleeps 30
seconds and loops again; KeyboardInterrupt breaks out of the while loop. -/
def loop_step (interval : ℚ) (s : LoopState) (o : CycleOutcome) : LoopState :=
  if s.terminated then s
  else
    match o with
    | .ok checks alerts =>
        { s with health_checks := checks
                 alerts := s.alerts ++ alerts
                 lastDelaySec := interval }
    | .err _ => { s with lastDelaySec := 30 }
    | .interrupt => { s with terminated := true }

/-- The loop state after n iterations, each of which completes normally and
contributes the same alert list (the steady state of a target that stays
down: the same non-healthy results every cycle). -/
def loopAfterCycles (cycleAlerts : List Alert) : Nat → LoopState
  | 0 => initialLoopState
  | n + 1 => loop_step 60 (loopAfterCycles cycleAlerts n) (.ok [] cycleAlerts)

/-- A concrete alert used in counterexamples and witnesses. -/
def sampleAlert : Alert :=
  { level := "critical"
    message := "HTTP - https://example.com: Connection failed"
    source := "infrastructure_monitor" }

/-- A concrete result of UNKNOWN severity (the fourth HealthStatus member). -/
def unknownCheck : HealthCheck :=
  { name := "System - CPU Usage", status := .unknown
    message := "no data points available", response_time := 0 }

/-- Whether a submitted probe execution returned a HealthCheck. -/
def probeReturned : Except String HealthCheck → Bool
  | .ok _ => true
  | .error _ => false

/-- The alert built from one non-healthy check (lines 493-499). -/
def mkAlert (check : HealthCheck) : Alert :=
  { level := check.status.value
    message := check.name ++ ": " ++ check.message
    source := "infrastructure_monitor" }

/-- Claim C1, counterexample: with the default CPU thresholds warn=80 and
crit=95, a measurement exactly equal to the critical threshold is classified
WARNING by the code (line 367 uses strict greater-than), not CRITICAL as the
claim requires; likewise a measurement exactly equal to the warning threshold
is classified HEALTHY, not WARNING. -/
theorem classify_boundary_counterexample :
    defaultThresholds.cpu_warning < defaultThresholds.cpu_critical ∧
    classify_cpu defaultThresholds defaultThresholds.cpu_critical = HealthStatus.warning ∧
    classify_cpu defaultThresholds defaultThresholds.cpu_critical ≠ HealthStatus.critical ∧
    classify_cpu defaultThresholds defaultThresholds.cpu_warning = HealthStatus.healthy ∧
    classify_cpu defaultThresholds defaultThresholds.cpu_warning ≠ HealthStatus.warning := by
  refine ⟨by decide, by decide, by decide, by decide, by decide⟩

/-- Claim C1, amended: in the higher-is-worse direction with warn < crit the
code classifies value ≤ warn as Healthy, warn < value ≤ crit as Warning and
value > crit as Critical — boundary values are inclusive on the BETTER side
(value == crit yields Warning, value == warn yields Healthy) — and the
response-time, CPU, memory and disk sites all instantiate this one pattern. -/
theorem higher_worse_classification (v w c : ℚ) (th : Thresholds)
    (url : String) (ts : ℚ) (es : Nat) (h : w < c) :
    (classifyHigherWorse v w c = HealthStatus.healthy ↔ v ≤ w) ∧
    (classifyHigherWorse v w c = HealthStatus.warning ↔ w < v ∧ v ≤ c) ∧
    (classifyHigherWorse v w c = HealthStatus.critical ↔ c < v) ∧
    classify_cpu th v = classifyHigherWorse v th.cpu_warning th.cpu_critical ∧
    classify_memory th v = classifyHigherWorse v th.memory_warning th.memory_critical ∧
    classify_disk th v = classifyHigherWorse v th.disk_warning th.disk_critical ∧
    (check_http_endpoint th url ts es (.success es v)).status
      = classifyHigherWorse v th.response_time_warning th.response_time_critical := by
  refine ⟨?_, ?_, ?_, rfl, rfl, rfl, ?_⟩
  · unfold classifyHigherWorse
    split_ifs with h1 h2
    · simp only [reduceCtorEq, false_iff, not_le]; linarith
    · simp only [reduceCtorEq, false_iff, not_le]; linarith
    · simp only [true_iff]; linarith
  · unfold classifyHigherWorse
    split_ifs with h1 h2
    · simp only [reduceCtorEq, false_iff, not_and, not_le]; intro _; linarith
    · simp only [true_iff]; constructor <;> linarith
    · simp only [reduceCtorEq, false_iff, not_and, not_le]; intro hw; linarith
  · unfold classifyHigherWorse
    split_ifs with h1 h2
    · simp only [true_iff]; linarith
    · simp only [reduceCtorEq, false_iff, not_lt]; linarith
    · simp only [reduceCtorEq, false_iff, not_lt]; linarith
  · simp only [check_http_endpoint, classifyHigherWorse, if_pos rfl]
    split_ifs <;> rfl

/-- Witness for higher_worse_classification at value 85, warn 80, crit 95 and
the default thresholds. -/
theorem higher_worse_classification_witness :
    (80 : ℚ) < 95 ∧
    ((classifyHigherWorse 85 80 95 = HealthStatus.healthy ↔ (85 : ℚ) ≤ 80) ∧
     (classifyHigherWorse 85 80 95 = HealthStatus.warning ↔ (80 : ℚ) < 85 ∧ (85 : ℚ) ≤ 95) ∧
     (classifyHigherWorse 85 80 95 = HealthStatus.critical ↔ (95 : ℚ) < 85) ∧
     classify_cpu defaultThresholds 85
       = classifyHigherWorse 85 defaultThresholds.cpu_warning defaultThresholds.cpu_critical ∧
     classify_memory defaultThresholds 85
       = classifyHigherWorse 85 defaultThresholds.memory_warning defaultThresholds.memory_critical ∧
     classify_disk defaultThresholds 85
       = classifyHigherWorse 85 defaultThresholds.disk_warning defaultThresholds.disk_critical ∧
     (check_http_endpoint defaultThresholds "https://example.com" 10 200
         (.success 200 85)).status
       = classifyHigherWorse 85 defaultThresholds.response_time_warning
           defaultThresholds.response_time_critical) :=
  ⟨by decide,
   higher_worse_classification 85 80 95 defaultThresholds "https://example.com" 10 200 (by decide)⟩

/-- Claim C2, counterexample: a result of UNKNOWN severity is non-healthy,
yet generate_alerts produces no alert for it — line 492 only admits WARNING
and CRITICAL — so the alert count differs from the non-healthy result count. -/
theorem unknown_alert_counterexample :
    unknownCheck.status ≠ HealthStatus.healthy ∧
    generate_alerts [unknownCheck] = [] ∧
    (generate_alerts [unknownCheck]).length = 0 := by
  refine ⟨by decide, rfl, rfl⟩

/-- Claim C2, amended: generate_alerts produces exactly one Alert per result
whose severity is WARNING or CRITICAL, in order, with message
"{name}: {message}" and level the severity string; results of HEALTHY or
UNKNOWN severity produce no alert, so the alert count equals the count of
Warning-or-Critical results. -/
theorem alert_generation (checks : List HealthCheck) :
    generate_alerts checks
      = (checks.filter fun check =>
          check.status = HealthStatus.warning ∨ check.status = HealthStatus.critical).map mkAlert ∧
    (generate_alerts checks).length
      = (checks.filter fun check =>
          check.status = HealthStatus.warning ∨ check.status = HealthStatus.critical).length ∧
    ∀ a ∈ generate_alerts checks,
      ∃ check ∈ checks,
        (check.status = HealthStatus.warning ∨ check.status = HealthStatus.critical) ∧
        a.message = check.name ++ ": " ++ check.message := by
  have key : generate_alerts checks
      = (checks.filter fun check =>
          check.status = HealthStatus.warning ∨ check.status = HealthStatus.critical).map mkAlert := by
    induction checks with
    | nil => rfl
    | cons check rest ih =>
      by_cases h : check.status = HealthStatus.warning ∨ check.status = HealthStatus.critical
      · simp [generate_alerts, List.filterMap_cons, List.filter_cons, h, mkAlert] at ih ⊢
        exact ih
      · simp [generate_alerts, List.filterMap_cons, List.filter_cons, h] at ih ⊢
        exact ih
  refine ⟨key, by rw [key, List.length_map], ?_⟩
  intro a ha
  rw [key] at ha
  obtain ⟨check, hmem, hmk⟩ := List.mem_map.mp ha
  exact ⟨check, List.mem_filter.mp hmem |>.1,
    by simpa using List.mem_filter.mp hmem |>.2,
    by rw [← hmk]; rfl⟩

/-- Claim C3, counterexample: a probe whose exception escapes the probe
function (a missing configuration key or import raises before the probe
body's own try block) is caught by the collection loop at lines 467-472 and
its outcome is omitted: one submitted probe, zero results in the batch.
Moreover the unguarded check_system_resources call at line 475 makes
run_health_checks itself propagate an exception. -/
theorem dropped_probe_counterexample :
    run_health_checks [Except.error "KeyError: url"] (Except.ok []) = Except.ok [] ∧
    [(Except.error "KeyError: url" : Except String HealthCheck)].length = 1 ∧
    (collectFutures [Except.error "KeyError: url"]).length = 0 ∧
    run_health_checks [] (Except.error "ImportError: No module named psutil")
      = Except.error "ImportError: No module named psutil" := by
  refine ⟨rfl, rfl, rfl, rfl⟩

/-- Claim C3, amended: exceptions raised inside a probe's guarded region are
converted to Critical results (timeout, connection error, any other error,
database failure, SSL failure), and every probe that returned a result
appears in the batch; but a probe whose exception escapes the probe function
is logged and omitted from the batch, and an exception in the appended
system-resource checks propagates out of run_health_checks. -/
theorem probe_failure_isolation (probeOutcomes : List (Except String HealthCheck))
    (sysChecks : List HealthCheck) (th : Thresholds) (url : String) (ts : ℚ)
    (es : Nat) (db_type host : String) (port : Nat) (nowSec : Int) (e : String) :
    run_health_checks probeOutcomes (Except.ok sysChecks)
      = Except.ok (collectFutures probeOutcomes ++ sysChecks) ∧
    (collectFutures probeOutcomes).length = (probeOutcomes.filter probeReturned).length ∧
    (∀ check : HealthCheck, Except.ok check ∈ probeOutcomes → check ∈ collectFutures probeOutcomes) ∧
    (check_http_endpoint th url ts es .timeout).status = HealthStatus.critical ∧
    (check_http_endpoint th url ts es .connectionError).status = HealthStatus.critical ∧
    (check_http_endpoint th url ts es (.otherError e)).status = HealthStatus.critical ∧
    (check_database_connection th db_type host port (.failure e)).status = HealthStatus.critical ∧
    (check_ssl_certificate host port nowSec (.failure e)).status = HealthStatus.critical := by
  refine ⟨rfl, ?_, ?_, rfl, rfl, rfl, rfl, rfl⟩
  · induction probeOutcomes with
    | nil => rfl
    | cons o rest ih =>
      cases o with
      | ok check => simpa [collectFutures, probeReturned, List.filterMap_cons, List.filter_cons] using ih
      | error msg => simpa [collectFutures, probeReturned, List.filterMap_cons, List.filter_cons] using ih
  · intro check hmem
    induction probeOutcomes with
    | nil => simp at hmem
    | cons o rest ih =>
      rcases List.mem_cons.mp hmem with heq | htail
      · subst heq
        simp [collectFutures, List.filterMap_cons]
      · cases o with
        | ok c2 => simpa [collectFutures, List.filterMap_cons] using Or.inr (ih htail)
        | error msg => simpa [collectFutures, List.filterMap_cons] using ih htail

/-- Claim C4, counterexample: a database probe whose driver raises a timeout
produces the message "Connection failed: {error}" (lines 281-285), never
"Timeout after 10s"; that message form exists only in the HTTP probe. -/
theorem db_timeout_message_counterexample :
    (check_database_connection defaultThresholds "postgresql" "db.internal" 5432
        (.failure "timeout expired")).status = HealthStatus.critical ∧
    (check_database_connection defaultThresholds "postgresql" "db.internal" 5432
        (.failure "timeout expired")).message = "Connection failed: timeout expired" ∧
    (check_database_connection defaultThresholds "postgresql" "db.internal" 5432
        (.failure "timeout expired")).message ≠ "Timeout after 10s" := by
  refine ⟨rfl, rfl, by decide⟩

/-- Claim C4, amended: every failed database probe — a timeout included —
yields severity Critical with message "Connection failed: " followed by the
exception text, and response_time 0. -/
theorem db_failure_result (th : Thresholds) (db_type host : String) (port : Nat) (e : String) :
    (check_database_connection th db_type host port (.failure e)).status = HealthStatus.critical ∧
    (check_database_connection th db_type host port (.failure e)).message
      = "Connection failed: " ++ e ∧
    (check_database_connection th db_type host port (.failure e)).response_time = 0 :=
  ⟨rfl, rfl, rfl⟩

/-- Claim C5: certificate classification is inverted (fewer days worse):
5 days until expiry is Critical, 20 days Warning, 90 days Healthy; the
measurement is the floor of the remaining duration in whole days — a
certificate 5 days and 23 hours from expiry still measures 5 days (rounding
would give 6). -/
theorem cert_days_classification :
    (check_ssl_certificate "example.com" 443 0 (.success (5 * 86400))).status
      = HealthStatus.critical ∧
    (check_ssl_certificate "example.com" 443 0 (.success (20 * 86400))).status
      = HealthStatus.warning ∧
    (check_ssl_certificate "example.com" 443 0 (.success (90 * 86400))).status
      = HealthStatus.healthy ∧
    daysUntilExpiry 517200 0 = 5 ∧
    (check_ssl_certificate "example.com" 443 0 (.success 517200)).status
      = HealthStatus.critical ∧
    ∀ expiry now : Int,
      86400 * daysUntilExpiry expiry now ≤ expiry - now ∧
      expiry - now < 86400 * (daysUntilExpiry expiry now + 1) := by
  refine ⟨by decide, by decide, by decide, by decide, by decide, ?_⟩
  intro expiry now
  have hpos : (0 : Int) < 86400 := by norm_num
  have h1 : (expiry - now) % 86400 ≥ 0 := Int.emod_nonneg _ (by norm_num)
  have h2 : (expiry - now) % 86400 < 86400 := Int.emod_lt_of_pos _ hpos
  have h3 : 86400 * ((expiry - now) / 86400) + (expiry - now) % 86400 = expiry - now :=
    Int.ediv_add_emod _ _
  rw [daysUntilExpiry, Int.fdiv_eq_ediv _ (by norm_num)]
  constructor <;> linarith

/-- Claim C6: dispatch on an empty alert list attempts no channel; on a
non-empty list each channel is attempted exactly when its enabled flag is
set, independently of either channel's send outcome — in particular the
email channel failing does not prevent the slack attempt, a disabled channel
is never invoked, and the dispatcher is a total function (channel failures
are swallowed into logged events, never propagated). -/
theorem dispatch_isolation (cfg : NotifConfig) (alerts : List Alert)
    (emailOutcome slackOutcome : SendOutcome) (h : alerts ≠ []) :
    send_notifications cfg [] emailOutcome slackOutcome = [] ∧
    (NotifEvent.attempted .email
        ∈ send_notifications cfg alerts emailOutcome slackOutcome
      ↔ cfg.emailEnabled = true) ∧
    (NotifEvent.attempted .slack
        ∈ send_notifications cfg alerts emailOutcome slackOutcome
      ↔ cfg.slackEnabled = true) := by
  refine ⟨rfl, ?_, ?_⟩ <;>
  · cases alerts with
    | nil => exact absurd rfl h
    | cons a rest =>
      cases he : cfg.emailEnabled <;> cases hs : cfg.slackEnabled <;>
        cases emailOutcome <;> cases slackOutcome <;>
        simp [send_notifications, runChannel, he, hs]

/-- Witness for dispatch_isolation: both channels enabled, the email send
raising an SMTP auth error, one alert. -/
theorem dispatch_isolation_witness :
    ([sampleAlert] ≠ ([] : List Alert)) ∧
    (send_notifications ⟨true, true⟩ [] (.err "SMTP auth error") .ok = [] ∧
     (NotifEvent.attempted .email
         ∈ send_notifications ⟨true, true⟩ [sampleAlert] (.err "SMTP auth error") .ok
       ↔ (⟨true, true⟩ : NotifConfig).emailEnabled = true) ∧
     (NotifEvent.attempted .slack
         ∈ send_notifications ⟨true, true⟩ [sampleAlert] (.err "SMTP auth error") .ok
       ↔ (⟨true, true⟩ : NotifConfig).slackEnabled = true)) :=
  ⟨List.cons_ne_nil _ _,
   dispatch_isolation ⟨true, true⟩ [sampleAlert] (.err "SMTP auth error") .ok
     (List.cons_ne_nil _ _)⟩

/-- Claim C7: the chat-webhook payload for a non-empty alert batch is a
single message whose color is "danger" exactly when some alert is critical
(and "warning" otherwise), whose title carries the total alert count, and
whose text joins bullet lines for at most the first 10 alerts. -/
theorem slack_payload_shape (alerts : List Alert) (h : alerts ≠ []) :
    ((build_slack_message alerts).color = "danger"
      ↔ ∃ a ∈ alerts, a.level = "critical") ∧
    ((build_slack_message alerts).color = "danger" ∨
     (build_slack_message alerts).color = "warning") ∧
    (build_slack_message alerts).title
      = "Infrastructure Alert - " ++ toString alerts.length ++ " issues detected" ∧
    (build_slack_message alerts).text
      = String.intercalate "\n" ((alerts.take 10).map fun alert => "• " ++ alert.message) ∧
    ((alerts.take 10).map fun alert => "• " ++ alert.message).length ≤ 10 := by
  refine ⟨?_, ?_, rfl, rfl, ?_⟩
  · by_cases hc : (alerts.filter fun a => a.level = "critical").isEmpty
    · rw [build_slack_message]
      simp only [hc, if_true]
      constructor
      · intro hd; exact absurd hd (by decide)
      · intro ⟨a, hmem, hlev⟩
        rw [List.isEmpty_iff, List.filter_eq_nil_iff] at hc
        exact absurd hlev (by simpa using hc a hmem)
    · rw [build_slack_message]
      simp only [hc, if_false]
      constructor
      · intro _
        rw [List.isEmpty_iff, List.filter_eq_nil_iff] at hc
        push_neg at hc
        obtain ⟨a, hmem, hlev⟩ := hc
        exact ⟨a, hmem, by simpa using hlev⟩
      · intro _; rfl
  · by_cases hc : (alerts.filter fun a => a.level = "critical").isEmpty <;>
      simp [build_slack_message, hc]
  · rw [List.length_map, List.length_take]
    exact min_le_left _ _

/-- Witness for slack_payload_shape at the one-alert critical batch. -/
theorem slack_payload_shape_witness :
    ([sampleAlert] ≠ ([] : List Alert)) ∧
    (((build_slack_message [sampleAlert]).color = "danger"
       ↔ ∃ a ∈ [sampleAlert], a.level = "critical") ∧
     ((build_slack_message [sampleAlert]).color = "danger" ∨
      (build_slack_message [sampleAlert]).color = "warning") ∧
     (build_slack_message [sampleAlert]).title
       = "Infrastructure Alert - " ++ toString ([sampleAlert] : List Alert).length
           ++ " issues detected" ∧
     (build_slack_message [sampleAlert]).text
       = String.intercalate "\n"
           ((([sampleAlert] : List Alert).take 10).map fun alert => "• " ++ alert.message) ∧
     ((([sampleAlert] : List Alert).take 10).map fun alert => "• " ++ alert.message).length
       ≤ 10) :=
  ⟨List.cons_ne_nil _ _, slack_payload_shape [sampleAlert] (List.cons_ne_nil _ _)⟩

/-- Claim C8: an exception escaping a cycle leaves the loop running with a
30-second backoff delay; a step terminates the loop exactly on the explicit
interrupt; and any sequence of cycles none of which is an interrupt leaves
the loop still running. -/
theorem loop_resilience (interval : ℚ) (s : LoopState) (m : String)
    (os : List CycleOutcome) (h : s.terminated = false)
    (hos : ∀ o ∈ os, o.isInterrupt = false) :
    (loop_step interval s (.err m)).terminated = false ∧
    (loop_step interval s (.err m)).lastDelaySec = 30 ∧
    (∀ o : CycleOutcome, (loop_step interval s o).terminated = true ↔ o = .interrupt) ∧
    (os.foldl (loop_step interval) s).terminated = false := by
  refine ⟨by simp [loop_step, h], by simp [loop_step, h], ?_, ?_⟩
  · intro o
    cases o with
    | ok checks alerts => simp [loop_step, h]
    | err msg => simp [loop_step, h]
    | interrupt => simp [loop_step, h]
  · induction os generalizing s with
    | nil => simpa using h
    | cons o rest ih =>
      have ho := hos o (List.mem_cons_self o rest)
      have hstep : (loop_step interval s o).terminated = false := by
        cases o with
        | ok checks alerts => simp [loop_step, h]
        | err msg => simp [loop_step, h]
        | interrupt => simp [CycleOutcome.isInterrupt] at ho
      simpa [List.foldl_cons] using
        ih (loop_step interval s o) hstep (fun o2 ho2 => hos o2 (List.mem_cons_of_mem _ ho2))

/-- Witness for loop_resilience from the initial state through one failing
cycle followed by one normal cycle. -/
theorem loop_resilience_witness :
    (initialLoopState.terminated = false ∧
     ∀ o ∈ [CycleOutcome.err "boom", CycleOutcome.ok [] []], o.isInterrupt = false) ∧
    ((loop_step 60 initialLoopState (.err "boom")).terminated = false ∧
     (loop_step 60 initialLoopState (.err "boom")).lastDelaySec = 30 ∧
     (∀ o : CycleOutcome,
        (loop_step 60 initialLoopState o).terminated = true ↔ o = .interrupt) ∧
     (([CycleOutcome.err "boom", CycleOutcome.ok [] []].foldl
         (loop_step 60) initialLoopState).terminated = false)) :=
  ⟨⟨rfl, by decide⟩,
   loop_resilience 60 initialLoopState "boom" [CycleOutcome.err "boom", CycleOutcome.ok [] []]
     rfl (by decide)⟩

/-- After n completed cycles each contributing the alert batch as, the loop
is still running and the retention buffer holds n * as.length alerts. -/
theorem loopAfterCycles_spec (as : List Alert) :
    ∀ n : Nat, (loopAfterCycles as n).terminated = false ∧
      (loopAfterCycles as n).alerts.length = n * as.length
  | 0 => by simp [loopAfterCycles, initialLoopState]
  | n + 1 => by
    obtain ⟨ht, hl⟩ := loopAfterCycles_spec as n
    refine ⟨by simp [loopAfterCycles, loop_step, ht], ?_⟩
    simp [loopAfterCycles, loop_step, ht, hl, Nat.succ_mul]

/-- Claim C9, counterexample: the retention buffer self.alerts is extended
every cycle (line 646) and never trimmed, so no fixed bound caps its length:
a target that stays down one alert per cycle exceeds any proposed bound. -/
theorem retention_unbounded_counterexample :
    ¬ ∃ B : Nat, ∀ n : Nat, (loopAfterCycles [sampleAlert] n).alerts.length ≤ B := by
  rintro ⟨B, hB⟩
  have hlen := (loopAfterCycles_spec [sampleAlert] (B + 1)).2
  have := hB (B + 1)
  rw [hlen] at this
  simp at this

/-- Claim C9, amended: the monitoring loop keeps a cross-cycle retention
buffer and appends each completed cycle's alerts to it without any cap: one
step grows the buffer by exactly the cycle's alert count, and for every
proposed bound some number of cycles pushes the buffer past it. -/
theorem retention_buffer_growth (interval : ℚ) (s : LoopState)
    (checks : List HealthCheck) (cycleAlerts : List Alert)
    (h : s.terminated = false) :
    (loop_step interval s (.ok checks cycleAlerts)).alerts = s.alerts ++ cycleAlerts ∧
    (loop_step interval s (.ok checks cycleAlerts)).alerts.length
      = s.alerts.length + cycleAlerts.length ∧
    ∀ B : Nat, ∃ n : Nat, B < (loopAfterCycles [sampleAlert] n).alerts.length := by
  refine ⟨by simp [loop_step, h], by simp [loop_step, h], ?_⟩
  intro B
  refine ⟨B + 1, ?_⟩
  rw [(loopAfterCycles_spec [sampleAlert] (B + 1)).2]
  simp

/-- Witness for retention_buffer_growth from the initial state. -/
theorem retention_buffer_growth_witness :
    initialLoopState.terminated = false ∧
    ((loop_step 60 initialLoopState (.ok [] [sampleAlert])).alerts
       = initialLoopState.alerts ++ [sampleAlert] ∧
     (loop_step 60 initialLoopState (.ok [] [sampleAlert])).alerts.length
       = initialLoopState.alerts.length + ([sampleAlert] : List Alert).length ∧
     ∀ B : Nat, ∃ n : Nat, B < (loopAfterCycles [sampleAlert] n).alerts.length) :=
  ⟨rfl, retention_buffer_growth 60 initialLoopState [] [sampleAlert] rfl⟩

/-- Claim C10: a database probe whose connection succeeds is Warning exactly
when the connect-plus-query latency strictly exceeds 1000 ms and Healthy
otherwise, is never Critical, and the result does not depend on the
configured response-time thresholds (the 1000 ms boundary is hardcoded at
line 269). -/
theorem db_success_classification (th th2 : Thresholds) (db_type host : String)
    (port : Nat) (rt : ℚ) (o : DbOutcome) :
    ((check_database_connection th db_type host port (.success rt)).status
        = HealthStatus.warning ↔ rt > 1000) ∧
    ((check_database_connection th db_type host port (.success rt)).status
        = HealthStatus.healthy ↔ rt ≤ 1000) ∧
    (check_database_connection th db_type host port (.success rt)).status
        ≠ HealthStatus.critical ∧
    check_database_connection th db_type host port o
      = check_database_connection th2 db_type host port o := by
  by_cases hrt : rt > 1000
  · refine ⟨?_, ?_, ?_, ?_⟩
    · simp [check_database_connection, hrt]
    · simp [check_database_connection, hrt]
    · simp [check_database_connection, hrt]
    · cases o <;> rfl
  · refine ⟨?_, ?_, ?_, ?_⟩
    · simp [check_database_connection, hrt]
    · simp [check_database_connection, hrt]; linarith
    · simp [check_database_connection, hrt]
    · cases o <;> rfl

end InfraMonitor
